import Mathlib

/-!
Verification of the tcptunnel connection-lifecycle engine (`main.go` /
`client.go`): the accept loop (`serve`), the per-connection duplex copy
(`handleConn`, `duplexCopy`, `connCopy`), the idempotent shutdown trigger
(`shutdown`) and the supervisor (`Run`).

The data plane (`io.Copy`) is embedded as a pure function over the source's
read chunks and the destination's write behaviour.  The control plane is
embedded as event traces: each Go function is translated into the list of
observable events (waitgroup arithmetic, connection closes, channel
operations, log calls, process exit) it performs on each control-flow path,
with the nondeterministic inputs (accept results, dial results, copy errors,
which select branch fires) passed as explicit parameters.
-/

namespace TcpTunnel

/-! ### Data plane: io.Copy as used by connCopy -/

/-- Embedding of `io.Copy(dst, src)` as called by `connCopy`.
`reads` is the sequence of successful read chunks the source yields before
it terminates (EOF or read error); `writeAcc k n` is the number of bytes the
destination accepts on the `k`-th write call of `n` bytes (`= n` when the
write fully succeeds).  Mirrors the copy loop: a zero-length read causes no
write; a full write continues the loop; a short or failed write stops the
copy with the bytes accepted so far.  The return value is the byte sequence
delivered to `dst`. -/
def ioCopy (reads : List (List Nat)) (writeAcc : Nat → Nat → Nat) (k : Nat) :
    List Nat :=
  match reads with
  | [] => []
  | c :: cs =>
    if c.isEmpty then ioCopy cs writeAcc k
    else
      if min (writeAcc k c.length) c.length = c.length then
        c ++ ioCopy cs writeAcc (k + 1)
      else
        c.take (min (writeAcc k c.length) c.length)

/-- The bytes one directional `connCopy` delivers to its destination:
`connCopy(dst, src, copyDone)` runs `io.Copy(dst, src)`. -/
def connCopyBytes (srcReads : List (List Nat)) (writeAcc : Nat → Nat → Nat) :
    List Nat :=
  ioCopy srcReads writeAcc 0

/-! ### Control plane: events -/

/-- Observable events of the Go functions in `client.go`. -/
inductive Ev where
  /-- `c.wg.Add(n)` -/
  | wgAdd (n : Nat)
  /-- `c.wg.Done()` -/
  | wgDone
  /-- `Close()` on the connection with identifier `cid`; the session spawned
  for the `i`-th accept owns the accepted connection `2*i` and the dialed
  connection `2*i+1`. -/
  | closeConn (cid : Nat)
  /-- a send into `c.errChan` (never emitted by any function of the source) -/
  | errChanSend
  /-- `close(c.done)`: firing the stop notification -/
  | closeDoneCh
  /-- `close(ch)` in `duplexCopy` (unblocks `handleConn`'s select) -/
  | chClose
  /-- `copyDone <- struct{}{}` in `connCopy` -/
  | copyDoneSend
  /-- `<-copyDone` in `duplexCopy` -/
  | copyDoneRecv
  /-- `log.Infof` -/
  | logInfo (msg : String)
  /-- `log.Errorf` -/
  | logError (msg : String)
  /-- `log.Warnf` -/
  | logWarn (msg : String)
  /-- `log.Fatalf`: logrus logs at fatal level and then calls `os.Exit(1)` -/
  | logFatal (msg : String)
  /-- `os.Exit(code)` (performed by logrus `Fatalf`) -/
  | processExit (code : Nat)
  /-- `net.Listen` succeeded: the listening socket is open -/
  | listenOpen
  /-- `go c.serve(listener, dialer)`: the accept loop starts -/
  | serveStart
  /-- `go c.handleConn(accepted, dialed)` for the `i`-th accepted connection -/
  | spawnSession (i : Nat)
  /-- `handleConn`'s select woke because `c.done` was closed -/
  | selectDoneFired
  /-- `handleConn`'s select woke because `duplexCopy` closed `ch` -/
  | selectChFired
  deriving DecidableEq, Repr

/-- Number of occurrences of event `e` in a trace. -/
def countEv (e : Ev) (t : List Ev) : Nat :=
  (t.map fun x => if x = e then 1 else 0).sum

/-- Contribution of one event to the waitgroup counter. -/
def evWgDelta : Ev → Int
  | .wgAdd n => (n : Int)
  | .wgDone => -1
  | _ => 0

/-- Net change of the waitgroup counter over a trace. -/
def wgDelta (t : List Ev) : Int :=
  (t.map evWgDelta).sum

/-- Total of all `wg.Add` increments in a trace. -/
def evWgAdd : Ev → Nat
  | .wgAdd n => n
  | _ => 0

/-- Sum of the waitgroup increments in a trace. -/
def wgAdds (t : List Ev) : Nat :=
  (t.map evWgAdd).sum

/-- Indicator for process-exit events. -/
def evExit : Ev → Nat
  | .processExit _ => 1
  | _ => 0

/-- Number of process exits (`os.Exit` via logrus `Fatalf`) in a trace. -/
def processExits (t : List Ev) : Nat :=
  (t.map evExit).sum

/-! ### connCopy -/

/-- Errors `io.Copy` can return, as `connCopy` inspects them: a
`*net.OpError` carrying its `Op` tag, or any other error. -/
inductive GoErr where
  | opError (op : String)
  | otherError (msg : String)
  deriving DecidableEq, Repr

/-- Rendering of the error used in the `%s` verb of the log call. -/
def goErrText : GoErr → String
  | .opError op => op
  | .otherError msg => msg

/-- The log events of `connCopy`'s error handling: on a nil error, nothing;
on a `*net.OpError` with `Op == "readfrom"` or `Op == "read"`, return with
no log; otherwise `log.Errorf("failed to copy connection from %s to %s: %s",
src.RemoteAddr(), dst.RemoteAddr(), err)`. -/
def connCopyLog (srcAddr dstAddr : String) : Option GoErr → List Ev
  | none => []
  | some (.opError op) =>
    if op = "readfrom" then []
    else if op = "read" then []
    else [.logError ("failed to copy connection from " ++ srcAddr ++ " to "
            ++ dstAddr ++ ": " ++ op)]
  | some (.otherError msg) =>
    [.logError ("failed to copy connection from " ++ srcAddr ++ " to "
       ++ dstAddr ++ ": " ++ msg)]

/-- Trace of one `connCopy(dst, src, copyDone)` task, given the error result
of its `io.Copy`.  The deferred calls run in LIFO order: the function body
(error classification) first, then the `copyDone <- struct{}{}` send, then
`c.wg.Done()`. -/
def connCopyTrace (srcAddr dstAddr : String) (e : Option GoErr) : List Ev :=
  connCopyLog srcAddr dstAddr e ++ [.copyDoneSend, .wgDone]

/-! ### duplexCopy and handleConn -/

/-- Capacity of the `copyDone` channel created by `duplexCopy`:
`copyDone := make(chan struct{}, 2)`. -/
def duplexCopyChanCap : Nat := 2

/-- Trace of one `duplexCopy(conn, rConn, ch)` task: `wg.Add(2)`, spawn the
two `connCopy` tasks, block on `<-copyDone` until the FIRST of them sends,
then the deferred `close(ch)` and `wg.Done()` (LIFO order). -/
def duplexCopyTrace : List Ev :=
  [.wgAdd 2, .copyDoneRecv, .chClose, .wgDone]

/-- Which of the two events `handleConn`'s select can wake on fired first. -/
inductive SessionEnd where
  /-- `<-c.done`: the supervisor's stop notification fired first -/
  | stopFired
  /-- `<-ch`: `duplexCopy` finished (its first directional copy ended) -/
  | copierFinished
  deriving DecidableEq, Repr

/-- The select-wakeup event of `handleConn` for a given session end. -/
def selEv : SessionEnd → Ev
  | .stopFired => .selectDoneFired
  | .copierFinished => .selectChFired

/-- Trace of one `handleConn(accepted, remote)` task for the `i`-th accepted
connection: log, `wg.Add(1)`, spawn `duplexCopy`, block on the select, then
the deferred calls in LIFO order: `remote.Close()` (connection `2*i+1`),
`accepted.Close()` (connection `2*i`), `c.wg.Done()`. -/
def handleConnTrace (br : SessionEnd) (i : Nat) (aAddr rAddr : String) :
    List Ev :=
  [.logInfo ("tunneling connection from " ++ aAddr ++ " to " ++ rAddr),
   .wgAdd 1, selEv br,
   .closeConn (2 * i + 1), .closeConn (2 * i), .wgDone]

/-- The nondeterministic inputs of one tunnel session's tasks: which select
branch ended the session, and the `io.Copy` results of the two directional
copies. -/
structure SessionRun where
  br : SessionEnd
  e1 : Option GoErr
  e2 : Option GoErr

/-- Combined trace of the tasks of one session (the `handleConn` task, the
`duplexCopy` task and its two `connCopy` tasks) when all of them run to
completion.  `connCopy(rConn, conn, ...)` copies accepted → remote, so its
source address is the accepted connection's remote address `ra` and its
destination address is the target's; the second copy is the reverse. -/
def sessionTrace (i : Nat) (ra target : String) (r : SessionRun) : List Ev :=
  handleConnTrace r.br i ra target ++ duplexCopyTrace ++
    connCopyTrace ra target r.e1 ++ connCopyTrace target ra r.e2

/-! ### serve: the accept loop -/

/-- Result of one iteration of the accept loop: `listener.Accept` fails with
an error, or yields a connection (with remote and local address) whose
subsequent `dialer.Dial("tcp", c.targetAddress)` either fails (`some` dial
error) or succeeds (`none`). -/
inductive AcceptRes where
  | acceptErr (e : String)
  | accepted (raddr laddr : String) (dial : Option String)
  deriving DecidableEq, Repr

/-- Trace of `serve(listener, dialer)` over a finite prefix of accept-loop
iterations, the `i`-th accept having index `i`.  On accept error the loop
calls `log.Fatalf` — which in logrus terminates the process with exit code 1,
so the `return err` under it is unreachable and nothing after it runs.  On a
dial error the accepted connection is closed and the loop continues.  On
dial success `wg.Add(1)` and `go c.handleConn(accepted, dialed)`. -/
def serveTraceAux (i : Nat) : List AcceptRes → List Ev
  | [] => []
  | .acceptErr e :: _ =>
    [.logFatal ("error accepting connection: " ++ e), .processExit 1]
  | .accepted ra la (some derr) :: rest =>
    [.logInfo ("accepted connection from " ++ ra ++ " on " ++ la),
     .logError ("error dialing remote target: " ++ derr),
     .closeConn (2 * i)] ++ serveTraceAux (i + 1) rest
  | .accepted ra la none :: rest =>
    [.logInfo ("accepted connection from " ++ ra ++ " on " ++ la),
     .wgAdd 1, .spawnSession i] ++ serveTraceAux (i + 1) rest

/-- Traces of all session tasks spawned by the accept loop (one
`sessionTrace` per successful accept+dial), when every spawned task runs to
completion.  After an accept error nothing further is spawned. -/
def sessionsTraces (target : String) (sess : Nat → SessionRun) (i : Nat) :
    List AcceptRes → List Ev
  | [] => []
  | .acceptErr _ :: _ => []
  | .accepted _ _ (some _) :: rest => sessionsTraces target sess (i + 1) rest
  | .accepted ra _ none :: rest =>
    sessionTrace i ra target (sess i) ++ sessionsTraces target sess (i + 1) rest

/-! ### shutdown -/

/-- State of the `done` channel together with instrumentation: how many
times `close` was executed on it, and whether a `close` of an
already-closed channel (a Go panic) occurred. -/
structure DoneCh where
  closed : Bool
  closeCount : Nat
  panicked : Bool
  deriving DecidableEq, Repr

/-- The `done` channel as `newClient` creates it: open, never closed. -/
def doneInit : DoneCh := ⟨false, 0, false⟩

/-- `close(c.done)`: closing an already-closed Go channel panics. -/
def goCloseDone (d : DoneCh) : DoneCh :=
  if d.closed then { d with panicked := true }
  else { closed := true, closeCount := d.closeCount + 1, panicked := d.panicked }

/-- `shutdown()`: `select { case <-c.done: return; default: }` — a receive
from a closed channel succeeds immediately, so if `done` is already closed
the function returns; otherwise it falls through and runs `close(c.done)`. -/
def shutdown (d : DoneCh) : DoneCh :=
  if d.closed then d else goCloseDone d

/-! ### Run: startup and supervision -/

/-- Outcomes of the three fallible startup steps of `Run`, in source order:
`url.Parse(c.proxyAddress)` (only reached when a proxy address is
configured), `net.Listen("tcp", c.listenAddress)`, and
`proxy.FromURL(proxyURL, dialer)` (only reached when a proxy address is
configured; fails when the URL's scheme is unsupported). -/
structure StartupScript where
  parseOk : Bool
  listenOk : Bool
  fromURLOk : Bool
  deriving DecidableEq, Repr

/-- Trace of the startup phase of `Run` for proxy address `pa`: parse the
proxy URL if one is configured (failure: `log.Fatalf`, process exit); open
the listener (failure: `log.Fatalf`, process exit); build the proxy dialer
from the URL if one is configured (failure: `log.Fatalf`, process exit);
finally `go c.serve(listener, dialer)`.  Note `proxy.FromURL` runs after
`net.Listen` in the source. -/
def runStartupTrace (pa : String) (s : StartupScript) : List Ev :=
  if pa = "" then
    if s.listenOk then
      [.listenOpen, .logInfo "Listening port opened", .serveStart]
    else
      [.logFatal "could not start listening", .processExit 1]
  else if s.parseOk then
    if s.listenOk then
      if s.fromURLOk then
        [.listenOpen, .logInfo "Listening port opened", .serveStart]
      else
        [.listenOpen, .logInfo "Listening port opened",
         .logFatal "could not construct proxy", .processExit 1]
    else
      [.logFatal "could not start listening", .processExit 1]
  else
    [.logFatal "could not parse proxy URL", .processExit 1]

/-- Whether startup reaches `go c.serve(...)`: the parse step passes (or is
skipped), the listen step passes, and the `proxy.FromURL` step passes (or is
skipped). -/
def serveStarted (pa : String) (s : StartupScript) : Bool :=
  (pa == "" || s.parseOk) && s.listenOk && (pa == "" || s.fromURLOk)

/-- Capacity of `c.errChan` as created by `newClient`:
`errChan: make(chan error, 1)`. -/
def newClientErrChanCap : Nat := 1

/-- Trace of a whole run: startup; if the accept loop started, its trace,
the traces of all spawned session tasks, and the shutdown phase of `Run`
(the select on `signal`/`done`, `c.shutdown()` closing `done`, closing the
listener, the bounded `wg.Wait` — with a warning when the 10-second grace
period elapses first — and finally `return <-c.errChan`). -/
def runTrace (pa : String) (s : StartupScript) (target : String)
    (script : List AcceptRes) (sess : Nat → SessionRun) (timedOut : Bool) :
    List Ev :=
  runStartupTrace pa s ++
    if serveStarted pa s then
      serveTraceAux 0 script ++ sessionsTraces target sess 0 script ++
        [.closeDoneCh, .logInfo "stopping proxy client"] ++
        (if timedOut then [.logWarn "some goroutines will be stopped forcefully"]
         else [])
    else []

/-- Whether the final `return <-c.errChan` of `Run` can complete: the
receive on the 1-buffered, never-closed `errChan` unblocks exactly when some
send into it occurred during the run. -/
def runReturns (t : List Ev) : Bool :=
  countEv .errChanSend t != 0

/-! ### The copyDone channel of duplexCopy as a buffered channel -/

/-- Operations on a buffered channel. -/
inductive ChOp where
  | send
  | recv
  deriving DecidableEq, Repr

/-- Number of sends in a channel-operation sequence. -/
def countSends : List ChOp → Nat
  | [] => 0
  | .send :: r => countSends r + 1
  | .recv :: r => countSends r

/-- Whether any send in the operation sequence finds the buffer (currently
holding `n` items) full — i.e. would block the sender.  A receive removes an
item. -/
def anySendBlocks (cap : Nat) : List ChOp → Nat → Bool
  | [], _ => false
  | .send :: r, n => if cap ≤ n then true else anySendBlocks cap r (n + 1)
  | .recv :: r, n => anySendBlocks cap r (n - 1)

/-! ### Helper lemmas -/

theorem countEv_append (e : Ev) (a b : List Ev) :
    countEv e (a ++ b) = countEv e a + countEv e b := by
  simp [countEv]

theorem wgDelta_append (a b : List Ev) :
    wgDelta (a ++ b) = wgDelta a + wgDelta b := by
  simp [wgDelta]

theorem wgAdds_append (a b : List Ev) :
    wgAdds (a ++ b) = wgAdds a + wgAdds b := by
  simp [wgAdds]

theorem processExits_append (a b : List Ev) :
    processExits (a ++ b) = processExits a + processExits b := by
  simp [processExits]

theorem connCopyLog_nil_or_logError (s d : String) (e : Option GoErr) :
    connCopyLog s d e = [] ∨ ∃ m, connCopyLog s d e = [.logError m] := by
  rcases e with _ | e
  · exact Or.inl rfl
  · cases e with
    | opError op =>
      simp only [connCopyLog]
      split_ifs
      · exact Or.inl rfl
      · exact Or.inl rfl
      · exact Or.inr ⟨_, rfl⟩
    | otherError msg => exact Or.inr ⟨_, rfl⟩

theorem wgDelta_connCopyLog (s d : String) (e : Option GoErr) :
    wgDelta (connCopyLog s d e) = 0 := by
  rcases connCopyLog_nil_or_logError s d e with h | ⟨m, h⟩ <;>
    simp [h, wgDelta, evWgDelta]

theorem countEv_connCopyTrace_wgDone (s d : String) (e : Option GoErr) :
    countEv .wgDone (connCopyTrace s d e) = 1 := by
  rcases connCopyLog_nil_or_logError s d e with h | ⟨m, h⟩ <;>
    simp [connCopyTrace, countEv_append, h, countEv]

theorem countEv_connCopyTrace_copyDoneSend (s d : String) (e : Option GoErr) :
    countEv .copyDoneSend (connCopyTrace s d e) = 1 := by
  rcases connCopyLog_nil_or_logError s d e with h | ⟨m, h⟩ <;>
    simp [connCopyTrace, countEv_append, h, countEv]

theorem countEv_connCopyTrace_errChanSend (s d : String) (e : Option GoErr) :
    countEv .errChanSend (connCopyTrace s d e) = 0 := by
  rcases connCopyLog_nil_or_logError s d e with h | ⟨m, h⟩ <;>
    simp [connCopyTrace, countEv_append, h, countEv]

theorem wgDelta_duplexCopyTrace : wgDelta duplexCopyTrace = 1 := by
  simp [duplexCopyTrace, wgDelta, evWgDelta]

theorem wgDelta_connCopyTrace (s d : String) (e : Option GoErr) :
    wgDelta (connCopyTrace s d e) = -1 := by
  simp only [connCopyTrace, wgDelta_append, wgDelta_connCopyLog]
  simp [wgDelta, evWgDelta]

theorem wgDelta_handleConnTrace (br : SessionEnd) (i : Nat) (a r : String) :
    wgDelta (handleConnTrace br i a r) = 0 := by
  cases br <;> simp [handleConnTrace, selEv, wgDelta, evWgDelta]

theorem wgDelta_sessionTrace (i : Nat) (ra target : String) (r : SessionRun) :
    wgDelta (sessionTrace i ra target r) = -1 := by
  simp only [sessionTrace, wgDelta_append, wgDelta_handleConnTrace,
    wgDelta_duplexCopyTrace, wgDelta_connCopyTrace]
  norm_num

theorem ioCopy_full_writes (writeAcc : Nat → Nat → Nat)
    (h : ∀ k n, writeAcc k n = n) (reads : List (List Nat)) :
    ∀ k, ioCopy reads writeAcc k = reads.flatten := by
  induction reads with
  | nil => intro k; simp [ioCopy]
  | cons c cs ih =>
    intro k
    cases c with
    | nil => simpa [ioCopy] using ih k
    | cons b bs => simp [ioCopy, h, ih]

/-! ### Claim theorems -/

/-- Claim C1: for every established tunnel session whose destination accepts
all writes, each directional copy (`connCopy` running `io.Copy`) delivers to
the other side exactly the byte sequence read from its source — the
concatenation, in order, of all read chunks, with nothing altered, dropped,
duplicated or reordered, for arbitrary chunk sizes including zero-length
reads, in both directions. -/
theorem C1_bit_exact_relay (inbound outbound : List (List Nat))
    (wIn wOut : Nat → Nat → Nat)
    (hIn : ∀ k n, wIn k n = n) (hOut : ∀ k n, wOut k n = n) :
    connCopyBytes inbound wIn = inbound.flatten
    ∧ connCopyBytes outbound wOut = outbound.flatten :=
  ⟨ioCopy_full_writes wIn hIn inbound 0, ioCopy_full_writes wOut hOut outbound 0⟩

theorem C1_witness :
    connCopyBytes [[1, 2], [], [3]] (fun _ n => n) = [[1, 2], [], [3]].flatten
    ∧ connCopyBytes [[], [7, 7]] (fun _ n => n) = [[], [7, 7]].flatten :=
  C1_bit_exact_relay [[1, 2], [], [3]] [[], [7, 7]] (fun _ n => n)
    (fun _ n => n) (fun _ _ => rfl) (fun _ _ => rfl)

/-- Claim C4: on every exit path of a tunnel session — the copier finishing
first (normal completion or copier error) or the supervisor's stop
notification firing first — `handleConn` closes the accepted connection
(`2*i`) and the dialed connection (`2*i+1`) each exactly once; and
`duplexCopy` finishes after receiving exactly ONE `copyDone` completion
(the first directional copy to end), not two. -/
theorem C4_session_closes_both_exactly_once (br : SessionEnd) (i : Nat)
    (a r : String) :
    countEv (.closeConn (2 * i)) (handleConnTrace br i a r) = 1
    ∧ countEv (.closeConn (2 * i + 1)) (handleConnTrace br i a r) = 1
    ∧ duplexCopyTrace = [.wgAdd 2, .copyDoneRecv, .chClose, .wgDone]
    ∧ countEv .copyDoneRecv duplexCopyTrace = 1 := by
  cases br <;>
    simp [handleConnTrace, selEv, duplexCopyTrace, countEv, Nat.succ_ne_self]

/-- Claim C6: initiating shutdown is idempotent: `shutdown (shutdown d)` is
`shutdown d`, and iterating `shutdown` any positive number of times from the
freshly-created `done` channel closes it exactly once, with no panic (no
double close). -/
theorem C6_shutdown_idempotent (d : DoneCh) (n : Nat) :
    shutdown (shutdown d) = shutdown d
    ∧ (shutdown^[n + 1] doneInit).closed = true
    ∧ (shutdown^[n + 1] doneInit).closeCount = 1
    ∧ (shutdown^[n + 1] doneInit).panicked = false := by
  have hone : shutdown doneInit = ⟨true, 1, false⟩ := rfl
  have hfix : ∀ m, shutdown^[m] (⟨true, 1, false⟩ : DoneCh) = ⟨true, 1, false⟩ := by
    intro m
    induction m with
    | zero => rfl
    | succ m ih => rw [Function.iterate_succ_apply, show shutdown ⟨true, 1, false⟩ = ⟨true, 1, false⟩ from rfl, ih]
  have hiter : shutdown^[n + 1] doneInit = ⟨true, 1, false⟩ := by
    rw [Function.iterate_succ_apply, hone, hfix]
  refine ⟨?_, by rw [hiter], by rw [hiter], by rw [hiter]⟩
  by_cases hc : d.closed = true
  · simp [shutdown, hc]
  · simp [shutdown, goCloseDone, hc]

/-- Claim C7: `connCopy`'s handling of an `io.Copy` error: a `*net.OpError`
whose `Op` is `"read"` or `"readfrom"` is suppressed (no log); every other
error is logged with the source and destination remote addresses; in either
case the trace still ends with the `copyDone` send and `wg.Done()` (the copy
completes normally) and contains no process exit (never fatal, never
retried). -/
theorem C7_copy_error_classification (src dst : String) (e : GoErr) :
    connCopyLog src dst (some e) =
      (if e = .opError "read" ∨ e = .opError "readfrom" then []
       else [.logError ("failed to copy connection from " ++ src ++ " to "
               ++ dst ++ ": " ++ goErrText e)])
    ∧ connCopyTrace src dst (some e) =
        connCopyLog src dst (some e) ++ [.copyDoneSend, .wgDone]
    ∧ processExits (connCopyTrace src dst (some e)) = 0 := by
  refine ⟨?_, rfl, ?_⟩
  · cases e with
    | opError op =>
      simp only [connCopyLog, goErrText]
      split_ifs with h1 h2 h3 h3 <;> simp_all
    | otherError msg => simp [connCopyLog, goErrText]
  · rcases connCopyLog_nil_or_logError src dst (some e) with h | ⟨m, h⟩ <;>
      simp [connCopyTrace, processExits_append, h, processExits, evExit]

theorem countEv_copyDoneSend_handleConnTrace (br : SessionEnd) (i : Nat)
    (a r : String) :
    countEv .copyDoneSend (handleConnTrace br i a r) = 0 := by
  cases br <;> simp [handleConnTrace, selEv, countEv]

theorem countEv_errChanSend_handleConnTrace (br : SessionEnd) (i : Nat)
    (a r : String) :
    countEv .errChanSend (handleConnTrace br i a r) = 0 := by
  cases br <;> simp [handleConnTrace, selEv, countEv]

theorem countEv_errChanSend_sessionTrace (i : Nat) (ra target : String)
    (r : SessionRun) :
    countEv .errChanSend (sessionTrace i ra target r) = 0 := by
  simp only [sessionTrace, countEv_append, countEv_errChanSend_handleConnTrace,
    countEv_connCopyTrace_errChanSend]
  simp [duplexCopyTrace, countEv]

theorem countEv_errChanSend_serveTraceAux (script : List AcceptRes) :
    ∀ i, countEv .errChanSend (serveTraceAux i script) = 0 := by
  induction script with
  | nil => intro i; simp [serveTraceAux, countEv]
  | cons a rest ih =>
    intro i
    cases a with
    | acceptErr e => simp [serveTraceAux, countEv]
    | accepted ra la dial =>
      cases dial <;>
        · simp only [serveTraceAux, countEv_append, ih]
          simp [countEv]

theorem countEv_errChanSend_sessionsTraces (target : String)
    (sess : Nat → SessionRun) (script : List AcceptRes) :
    ∀ i, countEv .errChanSend (sessionsTraces target sess i script) = 0 := by
  induction script with
  | nil => intro i; simp [sessionsTraces, countEv]
  | cons a rest ih =>
    intro i
    cases a with
    | acceptErr e => simp [sessionsTraces, countEv]
    | accepted ra la dial =>
      cases dial <;>
        simp [sessionsTraces, countEv_append, countEv_errChanSend_sessionTrace, ih]

theorem countEv_errChanSend_runStartupTrace (pa : String) (s : StartupScript) :
    countEv .errChanSend (runStartupTrace pa s) = 0 := by
  unfold runStartupTrace
  split_ifs <;> simp [countEv]

theorem wgDelta_cons (e : Ev) (t : List Ev) :
    wgDelta (e :: t) = evWgDelta e + wgDelta t := by
  simp [wgDelta]

theorem wgDelta_nil : wgDelta [] = 0 := rfl

theorem wgDelta_serve_sessions (target : String) (sess : Nat → SessionRun)
    (script : List AcceptRes) :
    ∀ i, wgDelta (serveTraceAux i script) +
      wgDelta (sessionsTraces target sess i script) = 0 := by
  induction script with
  | nil => intro i; simp [serveTraceAux, sessionsTraces, wgDelta]
  | cons a rest ih =>
    intro i
    cases a with
    | acceptErr e =>
      simp [serveTraceAux, sessionsTraces, wgDelta, evWgDelta]
    | accepted ra la dial =>
      cases dial with
      | none =>
        have h := ih (i + 1)
        simp only [serveTraceAux, sessionsTraces, wgDelta_append, wgDelta_cons,
          wgDelta_nil, wgDelta_sessionTrace, evWgDelta] at *
        omega
      | some derr =>
        have h := ih (i + 1)
        simp only [serveTraceAux, sessionsTraces, wgDelta_append, wgDelta_cons,
          wgDelta_nil, evWgDelta] at *
        omega

theorem anySendBlocks_of_few_sends (cap : Nat) (ops : List ChOp) :
    ∀ n, n + countSends ops ≤ cap → anySendBlocks cap ops n = false := by
  induction ops with
  | nil => intro n h; rfl
  | cons o r ih =>
    intro n h
    cases o with
    | send =>
      have hn : ¬ cap ≤ n := by simp [countSends] at h; omega
      simp only [anySendBlocks, if_neg hn]
      exact ih (n + 1) (by simp [countSends] at h; omega)
    | recv =>
      simp only [anySendBlocks]
      exact ih (n - 1) (by simp [countSends] at h; omega)

/-- Claim C10: a session's tasks perform exactly two `copyDone` completion
sends (one per directional copy task), and on a buffered channel of
`duplexCopy`'s capacity (2) any operation sequence with at most two sends —
however few tokens are ever received, and `duplexCopy` receives only one —
never finds the buffer full: no completion send ever blocks, so both copy
tasks run to completion. -/
theorem C10_copyDone_capacity_two_never_blocks (i : Nat) (ra target : String)
    (r : SessionRun) (ops : List ChOp)
    (h : countSends ops ≤ duplexCopyChanCap) :
    countEv .copyDoneSend (sessionTrace i ra target r) = 2
    ∧ anySendBlocks duplexCopyChanCap ops 0 = false := by
  constructor
  · simp only [sessionTrace, countEv_append, countEv_copyDoneSend_handleConnTrace,
      countEv_connCopyTrace_copyDoneSend]
    simp [duplexCopyTrace, countEv]
  · exact anySendBlocks_of_few_sends duplexCopyChanCap ops 0 (by simpa using h)

theorem C10_witness :
    countEv .copyDoneSend
        (sessionTrace 0 "a" "t" ⟨.copierFinished, none, none⟩) = 2
    ∧ anySendBlocks duplexCopyChanCap [.send, .recv, .send] 0 = false :=
  C10_copyDone_capacity_two_never_blocks 0 "a" "t"
    ⟨.copierFinished, none, none⟩ [.send, .recv, .send] (by decide)

/-- Claim C8: when the dial for an accepted connection fails, `serve` logs
the failure, closes the accepted connection, adds nothing to the waitgroup
counter for it, does not exit, and continues the loop — a subsequent
accepted connection whose dial succeeds is still spawned as a session. -/
theorem C8_dial_failure_nonfatal (i : Nat) (ra la derr ra2 la2 : String)
    (rest : List AcceptRes) :
    serveTraceAux i (.accepted ra la (some derr) :: rest) =
      [.logInfo ("accepted connection from " ++ ra ++ " on " ++ la),
       .logError ("error dialing remote target: " ++ derr),
       .closeConn (2 * i)] ++ serveTraceAux (i + 1) rest
    ∧ wgAdds (serveTraceAux i (.accepted ra la (some derr) :: rest)) =
        wgAdds (serveTraceAux (i + 1) rest)
    ∧ processExits (serveTraceAux i (.accepted ra la (some derr) :: rest)) =
        processExits (serveTraceAux (i + 1) rest)
    ∧ Ev.spawnSession (i + 1) ∈
        serveTraceAux i (.accepted ra la (some derr)
          :: .accepted ra2 la2 none :: rest) := by
  refine ⟨rfl, ?_, ?_, ?_⟩
  · simp [serveTraceAux, wgAdds, evWgAdd]
  · simp [serveTraceAux, processExits, evExit]
  · simp [serveTraceAux]

/-- Claim C3 (code behaviour at the failing input): on an accept error the
accept loop calls `log.Fatalf` — logrus logs and terminates the process with
exit code 1, making the `return err` below it unreachable — and its trace
contains neither a send into `errChan` (the error is never recorded in the
single-slot result holder) nor a `close(c.done)` (the stop notification is
never fired by this path). -/
theorem C3_accept_error_not_recorded_no_stop (i : Nat) (e : String)
    (rest : List AcceptRes) :
    serveTraceAux i (.acceptErr e :: rest) =
      [.logFatal ("error accepting connection: " ++ e), .processExit 1]
    ∧ countEv .errChanSend (serveTraceAux i (.acceptErr e :: rest)) = 0
    ∧ countEv .closeDoneCh (serveTraceAux i (.acceptErr e :: rest)) = 0 :=
  ⟨rfl, by simp [serveTraceAux, countEv], by simp [serveTraceAux, countEv]⟩

/-- Claim C5: every task body decrements the waitgroup counter exactly once
(`connCopy`, `duplexCopy`, `handleConn` each contain exactly one
`wg.Done()`), the increments match the spawns (`wg.Add(1)` in `handleConn`,
`wg.Add(2)` in `duplexCopy`), and over any complete run of the accept loop
together with all spawned session tasks the net waitgroup delta is zero. -/
theorem C5_wg_counter_balanced (script : List AcceptRes)
    (sess : Nat → SessionRun) (target a b : String) (i j : Nat)
    (br : SessionEnd) (e : Option GoErr) :
    countEv .wgDone (connCopyTrace a b e) = 1
    ∧ countEv .wgDone duplexCopyTrace = 1
    ∧ countEv .wgDone (handleConnTrace br j a b) = 1
    ∧ wgAdds (handleConnTrace br j a b) = 1
    ∧ wgAdds duplexCopyTrace = 2
    ∧ wgDelta (serveTraceAux i script ++ sessionsTraces target sess i script)
        = 0 := by
  refine ⟨countEv_connCopyTrace_wgDone a b e, by simp [duplexCopyTrace, countEv],
    ?_, ?_, by simp [duplexCopyTrace, wgAdds, evWgAdd], ?_⟩
  · cases br <;> simp [handleConnTrace, selEv, countEv]
  · cases br <;> simp [handleConnTrace, selEv, wgAdds, evWgAdd]
  · rw [wgDelta_append]
    exact wgDelta_serve_sessions target sess script i

/-- Claim C2 (code behaviour): over every possible run — any startup
outcome, any accept script, any session behaviours, with or without the
grace-period timeout — no event ever sends into `errChan`, so the final
`return <-c.errChan` of `Run` can never complete: `Run` never returns a
result, neither a recorded error nor nil. -/
theorem C2_run_never_returns_result (pa : String) (s : StartupScript)
    (target : String) (script : List AcceptRes) (sess : Nat → SessionRun)
    (timedOut : Bool) :
    countEv .errChanSend (runTrace pa s target script sess timedOut) = 0
    ∧ runReturns (runTrace pa s target script sess timedOut) = false := by
  have h : countEv .errChanSend (runTrace pa s target script sess timedOut)
      = 0 := by
    unfold runTrace
    rw [countEv_append, countEv_errChanSend_runStartupTrace]
    split_ifs <;>
      (try simp only [countEv_append, countEv_errChanSend_serveTraceAux,
        countEv_errChanSend_sessionsTraces]) <;>
      simp [countEv]
  exact ⟨h, by simp [runReturns, h]⟩

/-- Counterexample to claim C9 as stated: with a well-formed proxy URL whose
scheme `proxy.FromURL` rejects, the failure happens AFTER `net.Listen`
succeeded — the startup trace opens the listening socket and then fails, so
on this construction failure the process has already begun listening. -/
theorem C9_counterexample :
    runStartupTrace "foo://p:1" ⟨true, true, false⟩ =
      [.listenOpen, .logInfo "Listening port opened",
       .logFatal "could not construct proxy", .processExit 1]
    ∧ Ev.listenOpen ∈ runStartupTrace "foo://p:1" ⟨true, true, false⟩ := by
  constructor <;> decide

/-- Claim C9 (amended): with a proxy endpoint configured, dialer-chain
construction is completed before the accept loop starts and any
construction failure is fatal to startup; a malformed proxy URL fails
before the listener opens, while an unsupported scheme fails after the
listener has opened but still before the accept loop starts, so on either
failure no connection is ever accepted. -/
theorem C9_construction_before_accept_loop (pa : String) (s : StartupScript)
    (hpa : pa ≠ "") :
    (s.parseOk = false →
      runStartupTrace pa s =
        [.logFatal "could not parse proxy URL", .processExit 1])
    ∧ (s.fromURLOk = false → Ev.serveStart ∉ runStartupTrace pa s)
    ∧ (Ev.serveStart ∈ runStartupTrace pa s →
        runStartupTrace pa s =
          [.listenOpen, .logInfo "Listening port opened", .serveStart]) := by
  refine ⟨?_, ?_, ?_⟩
  · intro hp
    unfold runStartupTrace
    split_ifs <;> simp_all
  · intro hf
    unfold runStartupTrace
    split_ifs <;> simp_all
  · intro hm
    revert hm
    unfold runStartupTrace
    split_ifs <;> simp_all

theorem C9_construction_witness :
    runStartupTrace "socks5://p:1" ⟨false, true, true⟩ =
      [.logFatal "could not parse proxy URL", .processExit 1] :=
  (C9_construction_before_accept_loop "socks5://p:1" ⟨false, true, true⟩
    (by decide)).1 rfl

end TcpTunnel
